import Mathlib

/-!
Verification of the call signalling core of `src/lib/webrtc/call.js`
(MatrixCall and its candidate sender) against its natural-language
specification.  The JavaScript is shallowly embedded: each handler becomes
a pure Lean function from the call's field record (plus its inputs) to the
updated record together with the list of externally observable effects it
performs (events emitted to subscribers, events published to the room,
timers scheduled, media-stack requests).  JavaScript truthiness that the
source relies on (`opts.turnServers || …`, `if (event.getAge())`,
`!suppressEvent` with `suppressEvent` undefined) is modelled explicitly.
-/

namespace MatrixCallSpec

/-! ## Candidate pump (call.js lines 614-623 and 705-743)

The pump's per-call state is `candidateSendQueue` (a JS array of candidate
objects) and `candidateSendTries` (a number).  `sendCandidate` appends to the
queue and, when the try counter is exactly 0, schedules a flush 100 ms later.
`_sendCandidateQueue` returns at once on an empty queue; otherwise it drains
the whole queue into a local `cands`, increments the try counter, and hands
the batch to `sendEvent`.  While that publish is in flight further
`sendCandidate` calls may push onto the (now empty) queue; we pass those as
the `inFlight` list.  On publish success the counter resets to 0 and the
queue is flushed again immediately; on failure the drained candidates are
pushed back (JS `push` appends, so they land behind any in-flight arrivals),
and either the pump gives up (counter value after the entry increment is
greater than 5) or it schedules a retry after `500 * 2 ^ tries` ms and
increments the counter a second time. -/

/-- An ICE candidate payload as placed on the queue by
`_gotLocalIceCandidate` (call.js lines 345-350). -/
structure Candidate where
  candidate : String
  sdpMid : String
  sdpMLineIndex : Nat
  deriving Repr, DecidableEq

/-- The pump's per-call mutable state: `this.candidateSendQueue` and
`this.candidateSendTries` (call.js lines 42-43). -/
structure PumpState where
  queue : List Candidate
  tries : Nat
  deriving Repr, DecidableEq

/-- `sendCandidate` (call.js lines 614-623): push the candidate, and when
`candidateSendTries === 0` schedule a flush after 100 ms.  Returns the new
state and the scheduled coalescing delay (`none` when no flush is
scheduled). -/
def sendCandidate (s : PumpState) (c : Candidate) : PumpState × Option Nat :=
  ({ s with queue := s.queue ++ [c] }, if s.tries = 0 then some 100 else none)

/-- The observable outcome of one entry into `_sendCandidateQueue`
(call.js lines 705-743), with the publish promise already settled. -/
structure FlushOutcome where
  /-- The batch handed to `sendEvent` as the `candidates` field of the
  `m.call.candidates` content, or `none` when the early return on an empty
  queue fired and nothing was published. -/
  published : Option (List Candidate)
  /-- The pump state after the settlement code ran. -/
  next : PumpState
  /-- The retry delay passed to `setTimeout` by the failure branch, when a
  retry was scheduled. -/
  retryDelayMs : Option Nat
  /-- Whether the success branch re-invoked `_sendCandidateQueue`
  immediately (the chained flush). -/
  chainedFlush : Bool
  deriving Repr, DecidableEq

/-- `_sendCandidateQueue` (call.js lines 705-743).  `inFlight` lists the
candidates pushed by `sendCandidate` while the publish was pending;
`publishOk` is the settlement of the `sendEvent` promise. -/
def sendCandidateQueueStep (s : PumpState) (inFlight : List Candidate)
    (publishOk : Bool) : FlushOutcome :=
  if s.queue = [] then
    { published := none, next := s, retryDelayMs := none, chainedFlush := false }
  else
    let cands := s.queue
    let tries1 := s.tries + 1
    if publishOk then
      { published := some cands
        next := { queue := inFlight, tries := 0 }
        retryDelayMs := none
        chainedFlush := true }
    else
      -- failure: `self.candidateSendQueue.push(cands[i])` appends the
      -- drained batch behind whatever arrived in flight
      let queueAfter := inFlight ++ cands
      if tries1 > 5 then
        { published := some cands
          next := { queue := queueAfter, tries := 0 }
          retryDelayMs := none
          chainedFlush := false }
      else
        { published := some cands
          next := { queue := queueAfter, tries := tries1 + 1 }
          retryDelayMs := some (500 * 2 ^ tries1)
          chainedFlush := false }

/-- A persistent failure run: `n` successive flushes, each publish failing,
with no candidates enqueued in flight.  Returns the final pump state and the
retry delay scheduled by each failure (in order; `none` marks a failure that
gave up without scheduling). -/
def failRun : PumpState → Nat → PumpState × List (Option Nat)
  | s, 0 => (s, [])
  | s, n + 1 =>
    let o := sendCandidateQueueStep s [] false
    let r := failRun o.next n
    (r.1, o.retryDelayMs :: r.2)

/-- One step of a pump execution in which no candidate is enqueued while a
publish is in flight: either `sendCandidate` runs (a local candidate is
emitted), or one entry into `_sendCandidateQueue` runs with its publish
settling as `ok`. -/
inductive PumpEvent
  | enqueue (c : Candidate)
  | flush (ok : Bool)
  deriving Repr, DecidableEq

/-- Run a sequence of pump events from a pump state.  Returns the final
pump state and the concatenation, in publish order, of the batches whose
publish succeeded (the candidates actually delivered to the room). -/
def runPump : PumpState → List PumpEvent → PumpState × List Candidate
  | s, [] => (s, [])
  | s, PumpEvent.enqueue c :: evs => runPump (sendCandidate s c).1 evs
  | s, PumpEvent.flush ok :: evs =>
    let o := sendCandidateQueueStep s [] ok
    let r := runPump o.next evs
    (r.1, (if ok then o.published.getD [] else []) ++ r.2)

/-- The candidates emitted along a pump event sequence, in emission
order. -/
def emitted : List PumpEvent → List Candidate
  | [] => []
  | PumpEvent.enqueue c :: evs => c :: emitted evs
  | PumpEvent.flush _ :: evs => emitted evs

/-- Sample candidates used for concrete evaluations. -/
def candA : Candidate := { candidate := "candidate:1 1 UDP 2122252543 10.0.0.2 50000 typ host", sdpMid := "audio", sdpMLineIndex := 0 }

def candB : Candidate := { candidate := "candidate:2 1 UDP 1686052863 198.51.100.7 50001 typ srflx", sdpMid := "audio", sdpMLineIndex := 0 }

/-! ## Call data model (call.js lines 22-44 and the fields handlers assign)

Streams, video elements and successor calls are identified by opaque
numeric handles.  `hangupReason` holds whatever JavaScript value the code
stores there: `undefined` initially, a string from `hangup(reason)` or
`terminate`, or the boolean `true` that `_replacedBy`'s call
`this.hangup(true)` binds to the `reason` parameter. -/

/-- The values of `this.state` assigned anywhere in call.js. -/
inductive CState
  | fledgling
  | waitLocalMedia
  | createOffer
  | createAnswer
  | inviteSent
  | ringing
  | connecting
  | connected
  | ended
  deriving Repr, DecidableEq

/-- `hangupParty` values: the first argument of `terminate`. -/
inductive Party
  | localSide
  | remoteSide
  deriving Repr, DecidableEq

/-- `this.direction` values. -/
inductive Direction
  | inbound
  | outbound
  deriving Repr, DecidableEq

/-- `this.type` values. -/
inductive CallType
  | voice
  | video
  deriving Repr, DecidableEq

/-- A JavaScript value as stored in `hangupReason`: `undefined`, a string,
or the boolean `true`. -/
inductive JsVal
  | undef
  | str (s : String)
  | jsTrue
  deriving Repr, DecidableEq

/-- The fields of a `MatrixCall` that the handlers under verification read
or write.  `hasPeerConn` records that `this.peerConn` is set;
`pcSignalingClosed` mirrors `this.peerConn.signalingState == 'closed'`. -/
structure Call where
  state : CState
  direction : Option Direction
  callType : Option CallType
  hangupParty : Option Party
  hangupReason : JsVal
  didConnect : Bool
  localAVStream : Option Nat
  remoteAVStream : Option Nat
  hasPeerConn : Bool
  pcSignalingClosed : Bool
  successor : Option Nat
  localVideoElement : Option Nat
  remoteVideoElement : Option Nat
  waitForLocalAVStream : Bool
  deriving Repr, DecidableEq

/-- A call as the constructor leaves it (call.js lines 22-44): state
`fledgling`, nothing else set.  The pump state of a fresh call is
`⟨[], 0⟩`. -/
def freshCall : Call :=
  { state := CState.fledgling
    direction := none
    callType := none
    hangupParty := none
    hangupReason := JsVal.undef
    didConnect := false
    localAVStream := none
    remoteAVStream := none
    hasPeerConn := false
    pcSignalingClosed := false
    successor := none
    localVideoElement := none
    remoteVideoElement := none
    waitForLocalAVStream := false }

/-- Externally observable effects a handler performs: emissions to
subscribers (`this.emit`), events published to the room (`sendEvent`),
timers (`setTimeout`), and requests into the media stack. -/
inductive Eff
  | emitHangup
  | emitError (code : String)
  | emitReplaced
  | stopMedia
  | closePC
  | pauseLocalVideo
  | pauseRemoteVideo
  | sendHangupEvent (reason : JsVal)
  | sendInviteEvent (lifetimeMs : Nat)
  | sendAnswerEvent
  | scheduleTimer (ms : Nat)
  | addRemoteCandidate (cand : Candidate)
  | setRemoteDesc
  | createOfferReq
  | createAnswerReq
  | addStreamToPC (stream : Nat)
  | tryPlayRemoteStream
  | successorGotStream (stream : Option Nat)
  | successorWaitForStream
  | successorBindViews
  deriving Repr, DecidableEq

/-- `terminate` (call.js lines 625-643): pause bound video views, set
`state`/`hangupParty`/`hangupReason`, stop media, close the peer connection
when one exists and either the hangup is local or its signalling state is
not already `closed`, and emit `onHangup` when `shouldEmit`. -/
def terminate (c : Call) (party : Party) (reason : JsVal) (shouldEmit : Bool) :
    Call × List Eff :=
  let closes : Bool :=
    c.hasPeerConn && (party == Party.localSide || !c.pcSignalingClosed)
  ({ c with
      state := CState.ended
      hangupParty := some party
      hangupReason := reason
      pcSignalingClosed := c.pcSignalingClosed || closes },
   (if c.remoteVideoElement.isSome then [Eff.pauseRemoteVideo] else []) ++
   (if c.localVideoElement.isSome then [Eff.pauseLocalVideo] else []) ++
   [Eff.stopMedia] ++
   (if closes then [Eff.closePC] else []) ++
   (if shouldEmit then [Eff.emitHangup] else []))

/-- `MatrixCall.prototype.hangup` (call.js lines 222-231): terminate with
party `local` and `shouldEmit = !suppressEvent`, then publish an
`m.call.hangup` event carrying the reason. -/
def hangup (c : Call) (reason : JsVal) (suppressEvent : Bool) : Call × List Eff :=
  let t := terminate c Party.localSide reason (!suppressEvent)
  (t.1, t.2 ++ [Eff.sendHangupEvent reason])

/-! ## Construction (call.js lines 22-44)

`this.turnServers = opts.turnServers || [{urls: [FALLBACK_STUN_SERVER]}]`.
In JavaScript every array object is truthy — an empty array included — so
the fallback entry is used exactly when the option is absent
(`undefined`/`null`), which the embedding renders as `none`. -/

def FALLBACK_STUN_SERVER : String := "stun:stun.l.google.com:19302"

/-- A TURN server configuration `{urls, username?, credential?}`. -/
structure TurnServer where
  urls : List String
  username : Option String := none
  credential : Option String := none
  deriving Repr, DecidableEq

/-- The constructor's initialisation of `this.turnServers` (call.js lines
28-30): the supplied array when one was passed (arrays are truthy in JS,
even when empty), otherwise the single fallback STUN entry. -/
def initTurnServers (optsTurnServers : Option (List TurnServer)) : List TurnServer :=
  match optsTurnServers with
  | none => [{ urls := [FALLBACK_STUN_SERVER] }]
  | some l => l

/-! ## Inbound invite (call.js lines 117-154) -/

/-- The parts of an `m.call.invite` event the handler reads:
`content.lifetime`, `event.getAge()`, and whether the offered SDP contains
an `m=video` section. -/
structure InviteEvent where
  lifetimeMs : Nat
  ageMs : Nat
  offerHasVideoSection : Bool
  deriving Repr, DecidableEq

/-- `_initWithInvite` (call.js lines 117-154): create the peer connection,
apply the remote description, state := `ringing`, direction := inbound,
infer the type from the offered SDP, and — only when `event.getAge()` is
truthy, i.e. nonzero — schedule the ringing-expiry timer after
`lifetime - age` ms. -/
def initWithInvite (c : Call) (ev : InviteEvent) : Call × List Eff :=
  ({ c with
      hasPeerConn := true
      state := CState.ringing
      direction := some Direction.inbound
      callType := some (if ev.offerHasVideoSection then CallType.video else CallType.voice) },
   [Eff.setRemoteDesc] ++
   (if ev.ageMs ≠ 0 then [Eff.scheduleTimer (ev.lifetimeMs - ev.ageMs)] else []))

/-- The ringing-expiry closure scheduled by `_initWithInvite` (call.js
lines 142-151): a no-op unless still `ringing`; otherwise state := `ended`,
`hangupParty := remote`, stop media, close the peer connection when its
signalling state is not `closed`, and emit `onHangup`.  (`hangupReason` is
left untouched.) -/
def ringingTimeoutFired (c : Call) : Call × List Eff :=
  if c.state == CState.ringing then
    ({ c with
        state := CState.ended
        hangupParty := some Party.remoteSide
        pcSignalingClosed := true },
     [Eff.stopMedia] ++
     (if !c.pcSignalingClosed then [Eff.closePC] else []) ++
     [Eff.emitHangup])
  else (c, [])

/-! ## Glare replacement (call.js lines 196-215) -/

/-- `_replacedBy` (call.js lines 196-215).  Effects on the new call are
recorded as `successor…` effects; `newCallId` is the replacement's handle.
The final line of the JS is `this.hangup(true)`: `hangup` is declared as
`hangup(reason, suppressEvent)`, so `true` binds to `reason` and
`suppressEvent` is `undefined`, hence falsy. -/
def replacedBy (c : Call) (newCallId : Nat) : Call × List Eff :=
  let hand :=
    if c.state == CState.waitLocalMedia then
      (c, [Eff.successorWaitForStream])
    else if c.state == CState.createOffer then
      ({ c with localAVStream := none }, [Eff.successorGotStream c.localAVStream])
    else if c.state == CState.inviteSent then
      ({ c with localAVStream := none }, [Eff.successorGotStream c.localAVStream])
    else (c, [])
  let c1 := { hand.1 with successor := some newCallId }
  let h := hangup c1 JsVal.jsTrue false
  (h.1, hand.2 ++ [Eff.successorBindViews, Eff.emitReplaced] ++ h.2)

/-! ## Media-acquisition callbacks (call.js lines 172-188, 238-330, 454-464) -/

/-- The method names defined on `MatrixCall.prototype` in call.js.  Used to
check which property a `hookCallback(self, self.<name>)` site actually
resolves. -/
def matrixCallPrototypeMethods : List String :=
  ["placeVoiceCall", "placeVideoCall", "getLocalVideoElement",
   "getRemoteVideoElement", "setRemoteVideoElement", "_initWithInvite",
   "_initWithHangup", "answer", "_replacedBy", "hangup",
   "_gotUserMediaForInvite", "_gotUserMediaForAnswer",
   "_gotLocalIceCandidate", "_gotRemoteIceCandidate", "_receivedAnswer",
   "_gotLocalOffer", "_getLocalOfferFailed", "_getUserMediaFailed",
   "_onIceConnectionStateChanged", "_onSignallingStateChanged",
   "_onSetRemoteDescriptionSuccess", "_onSetRemoteDescriptionError",
   "_onAddStream", "_onRemoteStreamStarted", "_onRemoteStreamEnded",
   "_onRemoteStreamTrackStarted", "_onHangupReceived", "_onAnsweredElsewhere"]

/-- The property `answer` binds as the `getUserMedia` failure callback:
`hookCallback(self, self.getUserMediaFailed)` (call.js line 180). -/
def answerFailureCallbackName : String := "getUserMediaFailed"

/-- The property `_placeCallWithConstraints` binds as the `getUserMedia`
failure callback: `hookCallback(self, self._getUserMediaFailed)` (call.js
line 750). -/
def placeCallFailureCallbackName : String := "_getUserMediaFailed"

/-- `_getUserMediaFailed` (call.js lines 454-464): emit an `error` with
code `no_user_media` and then `this.hangup()` — both arguments undefined,
so the reason is `undefined` and the hangup event is not suppressed. -/
def getUserMediaFailed (c : Call) : Call × List Eff :=
  let h := hangup c JsVal.undef false
  (h.1, Eff.emitError "no_user_media" :: h.2)

/-- `_gotUserMediaForInvite` (call.js lines 238-273): forward the stream to
the successor when one exists; drop when ended; otherwise store the stream,
create the peer connection, attach the stream, request an offer, and
state := `create_offer`. -/
def gotUserMediaForInvite (c : Call) (stream : Nat) : Call × List Eff :=
  if c.successor.isSome then
    (c, [Eff.successorGotStream (some stream)])
  else if c.state == CState.ended then
    (c, [])
  else
    ({ c with
        localAVStream := some stream
        hasPeerConn := true
        state := CState.createOffer },
     [Eff.addStreamToPC stream, Eff.createOfferReq])

/-- `_gotUserMediaForAnswer` (call.js lines 280-330): drop when ended;
otherwise store the stream, attach it to the peer connection, request an
answer, and synchronously state := `create_answer`. -/
def gotUserMediaForAnswer (c : Call) (stream : Nat) : Call × List Eff :=
  if c.state == CState.ended then
    (c, [])
  else
    ({ c with
        localAVStream := some stream
        state := CState.createAnswer },
     [Eff.addStreamToPC stream, Eff.createAnswerReq])

/-! ## Signalling intake and connectivity callbacks
(call.js lines 337-601) -/

/-- `_gotRemoteIceCandidate` (call.js lines 359-370): drop when ended,
otherwise hand the candidate to the peer connection. -/
def gotRemoteIceCandidate (c : Call) (cand : Candidate) : Call × List Eff :=
  if c.state == CState.ended then (c, [])
  else (c, [Eff.addRemoteCandidate cand])

/-- `_receivedAnswer` (call.js lines 377-389): drop when ended, otherwise
apply the remote description and state := `connecting`. -/
def receivedAnswer (c : Call) : Call × List Eff :=
  if c.state == CState.ended then (c, [])
  else ({ c with state := CState.connecting }, [Eff.setRemoteDesc])

/-- `CALL_TIMEOUT_MS` (call.js line 46). -/
def CALL_TIMEOUT_MS : Nat := 60000

/-- The `setLocalDescription` success continuation inside `_gotLocalOffer`
(call.js lines 396-436): drop when ended; otherwise publish `m.call.invite`
with `lifetime: CALL_TIMEOUT_MS`, schedule the invite-expiry timer after
`CALL_TIMEOUT_MS` ms, and state := `invite_sent`. -/
def gotLocalOffer (c : Call) : Call × List Eff :=
  if c.state == CState.ended then (c, [])
  else
    ({ c with state := CState.inviteSent },
     [Eff.sendInviteEvent CALL_TIMEOUT_MS, Eff.scheduleTimer CALL_TIMEOUT_MS])

/-- The invite-expiry closure scheduled by `_gotLocalOffer` (call.js lines
427-431): when still `invite_sent`, `this.hangup('invite_timeout')` — the
second argument is undefined, so the event is not suppressed. -/
def inviteTimeoutFired (c : Call) : Call × List Eff :=
  if c.state == CState.inviteSent then
    hangup c (JsVal.str "invite_timeout") false
  else (c, [])

/-- `_onIceConnectionStateChanged` (call.js lines 470-486): drop when
ended; `completed`/`connected` ⇒ state := `connected` and
`didConnect := true`; `failed` ⇒ `hangup('ice_failed')`. -/
def onIceConnectionStateChanged (c : Call) (iceState : String) : Call × List Eff :=
  if c.state == CState.ended then (c, [])
  else if iceState == "completed" || iceState == "connected" then
    ({ c with state := CState.connected, didConnect := true }, [])
  else if iceState == "failed" then
    hangup c (JsVal.str "ice_failed") false
  else (c, [])

/-- `_onAddStream` (call.js lines 521-547): no ended guard.  Record the
remote stream; when inbound, infer the type from the stream's video tracks;
try to play the remote stream. -/
def onAddStream (c : Call) (stream : Nat) (videoTrackCount : Nat) : Call × List Eff :=
  let c1 := { c with remoteAVStream := some stream }
  let c2 :=
    if c.direction == some Direction.inbound then
      { c1 with
          callType := some (if videoTrackCount > 0 then CallType.video else CallType.voice) }
    else c1
  (c2, [Eff.tryPlayRemoteStream])

/-- `_onRemoteStreamStarted` (call.js lines 554-556): no ended guard;
state := `connected` unconditionally. -/
def onRemoteStreamStarted (c : Call) : Call × List Eff :=
  ({ c with state := CState.connected }, [])

/-- `_onRemoteStreamEnded` (call.js lines 563-572): no ended guard;
state := `ended`, `hangupParty := remote`, stop media, close the peer
connection when its signalling state is not `closed`, emit `onHangup`. -/
def onRemoteStreamEnded (c : Call) : Call × List Eff :=
  ({ c with
      state := CState.ended
      hangupParty := some Party.remoteSide
      pcSignalingClosed := true },
   [Eff.stopMedia] ++
   (if !c.pcSignalingClosed then [Eff.closePC] else []) ++
   [Eff.emitHangup])

/-- `_onHangupReceived` (call.js lines 588-591): no ended guard; terminate
with party `remote`, the message's reason, and the event emitted. -/
def onHangupReceived (c : Call) (reason : JsVal) : Call × List Eff :=
  terminate c Party.remoteSide reason true

/-- `_onAnsweredElsewhere` (call.js lines 598-601): terminate with party
`remote` and reason `answered_elsewhere`. -/
def onAnsweredElsewhere (c : Call) : Call × List Eff :=
  terminate c Party.remoteSide (JsVal.str "answered_elsewhere") true

/-! ## Concrete calls used in witnesses and counterexamples -/

/-- An outbound voice call that was hung up locally: state `ended` with the
hangup fields already set once. -/
def endedCall : Call :=
  { freshCall with
      state := CState.ended
      direction := some Direction.outbound
      callType := some CallType.voice
      hangupParty := some Party.localSide
      hangupReason := JsVal.str "user_hangup"
      didConnect := true
      hasPeerConn := true
      pcSignalingClosed := true }

/-- An outbound voice call whose invite has been published: state
`invite_sent`, captured local stream `7`, open peer connection. -/
def inviteSentCall : Call :=
  { freshCall with
      state := CState.inviteSent
      direction := some Direction.outbound
      callType := some CallType.voice
      localAVStream := some 7
      hasPeerConn := true }

/-- An outbound call waiting for local media capture. -/
def waitMediaCall : Call :=
  { freshCall with
      state := CState.waitLocalMedia
      direction := some Direction.outbound
      callType := some CallType.voice }

/-- An inbound ringing call with an open peer connection. -/
def ringingCall : Call :=
  { freshCall with
      state := CState.ringing
      direction := some Direction.inbound
      callType := some CallType.voice
      hasPeerConn := true }

/-! ## Theorems -/

/-- C3 counterexample: constructing a call with an explicitly empty
`turnServers` array leaves `this.turnServers` empty — `[] || fallback`
evaluates to `[]` in JavaScript because every array is truthy — so no
fallback STUN entry is injected and the list is empty after
construction. -/
theorem turnServersEmptyListKept :
    initTurnServers (some []) = [] ∧
    (initTurnServers (some [])).length = 0 := by
  exact ⟨rfl, rfl⟩

/-- C3 amended: the fallback STUN entry
`{urls: ["stun:stun.l.google.com:19302"]}` is injected exactly when the
caller supplies no `turnServers` option at all (absent/undefined); any
supplied array — the empty array included — is kept verbatim, so a caller
supplying `[]` gets an empty `turn_servers` list. -/
theorem turnServersFallbackOnlyWhenAbsent :
    initTurnServers none = [{ urls := [FALLBACK_STUN_SERVER] }] ∧
    ∀ l : List TurnServer, initTurnServers (some l) = l := by
  exact ⟨rfl, fun l => rfl⟩

/-- C10: a candidate-queue flush on an empty buffer is a complete no-op —
nothing is published, the pump state (attempt counter included) is
unchanged, no retry is scheduled, no chained flush happens — and every
batch that is handed to `sendEvent` is nonempty. -/
theorem flushOnEmptyQueueIsNoop (t : Nat) (inFlight : List Candidate)
    (ok : Bool) (s : PumpState) (batch : List Candidate)
    (h : (sendCandidateQueueStep s inFlight ok).published = some batch) :
    sendCandidateQueueStep { queue := [], tries := t } inFlight ok =
      { published := none, next := { queue := [], tries := t },
        retryDelayMs := none, chainedFlush := false } ∧
    batch ≠ [] := by
  refine ⟨by simp [sendCandidateQueueStep], ?_⟩
  intro hb
  subst hb
  rw [sendCandidateQueueStep] at h
  by_cases hq : s.queue = []
  · simp [hq] at h
  · simp only [hq, if_false] at h
    split_ifs at h <;> simp_all

/-- Witness for C10 at concrete inputs: the flush of an empty queue with
tries 0 while `[candA]` was published by a flush of a nonempty queue. -/
theorem flushOnEmptyQueueIsNoop_witness :
    sendCandidateQueueStep { queue := [], tries := 0 } [] true =
      { published := none, next := { queue := [], tries := 0 },
        retryDelayMs := none, chainedFlush := false } ∧
    [candA] ≠ ([] : List Candidate) :=
  flushOnEmptyQueueIsNoop 0 [] true { queue := [candA], tries := 0 } [candA]
    (by decide)

/-- C5 counterexample: the retry delay scheduled after the first publish
failure of a fresh run is 1000 ms, not 500 ms — the attempt counter was
already incremented on flush entry, so the failure branch computes
`500 * 2 ^ 1`. -/
theorem firstRetryDelayIsOneSecond :
    (sendCandidateQueueStep { queue := [candA], tries := 0 } [] false).retryDelayMs
      = some 1000 ∧
    (1000 : Nat) ≠ 500 := by decide

/-- C5 amended: because the counter is incremented once at flush entry and
once more when the retry is scheduled, the delay after the k-th consecutive
failure (1-indexed) is `500 * 2 ^ (2k - 1)`: 1000 ms, 4000 ms, 16000 ms;
so with three consecutive failures the retries occur at +1000 ms, +5000 ms
and +21000 ms measured from the first failure. -/
theorem backoffDelaysOfFailureRun (q : List Candidate) (h : q ≠ []) :
    (failRun { queue := q, tries := 0 } 3).2 =
      [some 1000, some 4000, some 16000] ∧
    1000 + 4000 = 5000 ∧ 1000 + 4000 + 16000 = 21000 := by
  refine ⟨?_, by norm_num, by norm_num⟩
  simp [failRun, sendCandidateQueueStep, h]

/-- Witness for C5 amended with the single-candidate queue `[candA]`. -/
theorem backoffDelaysOfFailureRun_witness :
    (failRun { queue := [candA], tries := 0 } 3).2 =
      [some 1000, some 4000, some 16000] ∧
    1000 + 4000 = 5000 ∧ 1000 + 4000 + 16000 = 21000 :=
  backoffDelaysOfFailureRun [candA] (by decide)

/-- C4 counterexample: in a persistent failure run the pump gives up on the
FOURTH consecutive failure, not the fifth — the counter at the fourth
failure's give-up test is 7 (because each retry adds two increments), so
the fourth failure schedules no retry and resets the counter to 0; a fifth
consecutive failure of the same run is unreachable. -/
theorem giveUpAtFourthFailure :
    (failRun { queue := [candA], tries := 0 } 4).2 =
      [some 1000, some 4000, some 16000, none] ∧
    (failRun { queue := [candA], tries := 0 } 4).1 =
      { queue := [candA], tries := 0 } := by decide

/-- C4 amended: after 4 consecutive publish failures of the same persistent
failure run the pump gives up for the batch: the attempt counter resets to
0, all undelivered candidates remain in the buffer (in order), and the next
enqueue of a local candidate appends it behind them and schedules a fresh
flush with the 100 ms coalescing delay. -/
theorem pumpGivesUpAfterFourFailures (q : List Candidate) (h : q ≠ [])
    (cnew : Candidate) :
    (failRun { queue := q, tries := 0 } 4).2 =
      [some 1000, some 4000, some 16000, none] ∧
    (failRun { queue := q, tries := 0 } 4).1 = { queue := q, tries := 0 } ∧
    sendCandidate (failRun { queue := q, tries := 0 } 4).1 cnew =
      ({ queue := q ++ [cnew], tries := 0 }, some 100) := by
  have hrun : failRun { queue := q, tries := 0 } 4 =
      ({ queue := q, tries := 0 }, [some 1000, some 4000, some 16000, none]) := by
    simp [failRun, sendCandidateQueueStep, h]
  refine ⟨by rw [hrun], by rw [hrun], ?_⟩
  rw [hrun]
  simp [sendCandidate]

/-- Witness for C4 amended with the single-candidate queue `[candA]` and a
fresh candidate `candB`. -/
theorem pumpGivesUpAfterFourFailures_witness :
    (failRun { queue := [candA], tries := 0 } 4).2 =
      [some 1000, some 4000, some 16000, none] ∧
    (failRun { queue := [candA], tries := 0 } 4).1 =
      { queue := [candA], tries := 0 } ∧
    sendCandidate (failRun { queue := [candA], tries := 0 } 4).1 candB =
      ({ queue := [candA, candB], tries := 0 }, some 100) :=
  pumpGivesUpAfterFourFailures [candA] (by decide) candB

/-- C6 counterexample: when a publish of `[candA]` fails while `candB` was
enqueued in flight, the failure branch `push`es the drained batch onto the
END of the buffer, leaving `[candB, candA]` — the drained candidate sits
behind the in-flight arrival, not in front of it, so the next batch's order
(`B` then `A`) differs from the emission order (`A` then `B`). -/
theorem requeueAppendsBehindInFlight :
    (sendCandidateQueueStep { queue := [candA], tries := 0 } [candB] false).next.queue
      = [candB, candA] ∧
    [candB, candA] ≠ [candA, candB] := by decide

/-- Helper for the order invariant: a flush with nothing enqueued in
flight conserves the buffer — the batch it delivered (empty unless the
publish succeeded) followed by the buffer it leaves behind is exactly the
buffer it started from. -/
theorem flushConservesBuffer (s : PumpState) (ok : Bool) :
    (if ok then (sendCandidateQueueStep s [] ok).published.getD [] else []) ++
      (sendCandidateQueueStep s [] ok).next.queue = s.queue := by
  by_cases hq : s.queue = []
  · cases ok <;> simp [sendCandidateQueueStep, hq]
  · cases ok
    · have hstep :
          sendCandidateQueueStep s [] false =
            if s.tries + 1 > 5 then
              { published := some s.queue
                next := { queue := [] ++ s.queue, tries := 0 }
                retryDelayMs := none
                chainedFlush := false }
            else
              { published := some s.queue
                next := { queue := [] ++ s.queue, tries := s.tries + 1 + 1 }
                retryDelayMs := some (500 * 2 ^ (s.tries + 1))
                chainedFlush := false } := by
        simp [sendCandidateQueueStep, hq]
      simp only [Bool.false_eq_true, if_false, List.nil_append]
      rw [hstep]
      split <;> simp
    · simp [sendCandidateQueueStep, hq]

/-- Order invariant of pump executions with no in-flight enqueues: the
delivered candidates followed by the remaining buffer equal the initial
buffer followed by the candidates in emission order. -/
theorem runPumpPreservesEmissionOrder (evs : List PumpEvent) :
    ∀ s : PumpState,
      (runPump s evs).2 ++ (runPump s evs).1.queue = s.queue ++ emitted evs := by
  induction evs with
  | nil => intro s; simp [runPump, emitted]
  | cons ev evs ih =>
    intro s
    cases ev with
    | enqueue c =>
      have := ih (sendCandidate s c).1
      simp only [runPump, emitted]
      rw [this]
      simp [sendCandidate]
    | flush ok =>
      simp only [runPump]
      rw [List.append_assoc, ih, ← List.append_assoc, flushConservesBuffer]
      simp [emitted]

/-- C6 amended: when a candidate-batch publish fails, the drained
candidates are appended to the BACK of the buffer, behind any candidates
enqueued while the publish was in flight, so an enqueue landing during a
failed publish reorders the buffer against emission order (with nothing
enqueued in flight the buffer is restored exactly, and every batch handed
to a publish is the buffer's content at drain time).  For every sequence of
enqueues and failed/successful flushes in which no candidate is enqueued
while a publish is in flight, the overall published order equals the
emission order: the candidates delivered by successful publishes followed
by the remaining buffer always equal the initial buffer followed by the
candidates in emission order. -/
theorem requeueAppendsDrainedBatch (s : PumpState) (inFlight : List Candidate)
    (h : s.queue ≠ []) (evs : List PumpEvent) (s' : PumpState) :
    (sendCandidateQueueStep s inFlight false).next.queue = inFlight ++ s.queue ∧
    (sendCandidateQueueStep s [] false).next.queue = s.queue ∧
    (∀ ok : Bool, (sendCandidateQueueStep s inFlight ok).published = some s.queue) ∧
    (runPump s' evs).2 ++ (runPump s' evs).1.queue = s'.queue ++ emitted evs := by
  have hstep : ∀ iF : List Candidate,
      sendCandidateQueueStep s iF false =
        if s.tries + 1 > 5 then
          { published := some s.queue
            next := { queue := iF ++ s.queue, tries := 0 }
            retryDelayMs := none
            chainedFlush := false }
        else
          { published := some s.queue
            next := { queue := iF ++ s.queue, tries := s.tries + 1 + 1 }
            retryDelayMs := some (500 * 2 ^ (s.tries + 1))
            chainedFlush := false } := by
    intro iF
    simp [sendCandidateQueueStep, h]
  refine ⟨?_, ?_, ?_, runPumpPreservesEmissionOrder evs s'⟩
  · rw [hstep]
    split <;> rfl
  · rw [hstep]
    split <;> simp
  · intro ok
    cases ok
    · rw [hstep]
      split <;> rfl
    · simp [sendCandidateQueueStep, h]

/-- Witness for C6 amended: a failed publish of `[candA]` with `candB`
enqueued in flight, and a concrete no-interleaving execution — enqueue
`candA`, failed flush, enqueue `candB`, successful flush — whose delivered
candidates `[candA, candB]` follow emission order. -/
theorem requeueAppendsDrainedBatch_witness :
    (sendCandidateQueueStep { queue := [candA], tries := 0 } [candB] false).next.queue
      = [candB] ++ [candA] ∧
    (sendCandidateQueueStep { queue := [candA], tries := 0 } [] false).next.queue
      = [candA] ∧
    (∀ ok : Bool,
      (sendCandidateQueueStep { queue := [candA], tries := 0 } [candB] ok).published
        = some [candA]) ∧
    (runPump { queue := [], tries := 0 }
        [PumpEvent.enqueue candA, PumpEvent.flush false,
         PumpEvent.enqueue candB, PumpEvent.flush true]).2 ++
      (runPump { queue := [], tries := 0 }
        [PumpEvent.enqueue candA, PumpEvent.flush false,
         PumpEvent.enqueue candB, PumpEvent.flush true]).1.queue
      = [] ++ emitted
          [PumpEvent.enqueue candA, PumpEvent.flush false,
           PumpEvent.enqueue candB, PumpEvent.flush true] :=
  requeueAppendsDrainedBatch { queue := [candA], tries := 0 } [candB] (by decide)
    [PumpEvent.enqueue candA, PumpEvent.flush false,
     PumpEvent.enqueue candB, PumpEvent.flush true]
    { queue := [], tries := 0 }

/-- C1 counterexample: on a call already in state `ended` (hung up locally
with reason "user_hangup"), `_onRemoteStreamStarted` still overwrites
`state` with `connected`, `_onAddStream` still records the remote stream
handle, and `_onHangupReceived` re-sets both `hangupParty` (local →
remote) and `hangupReason` — none of these handlers checks for `ended`, so
fields outside `hangup_reason`/`hangup_party` change after `ended` and the
hangup fields are re-set. -/
theorem endedCallMutatedByUnguardedCallbacks :
    endedCall.state = CState.ended ∧
    (onRemoteStreamStarted endedCall).1.state = CState.connected ∧
    endedCall.remoteAVStream = none ∧
    (onAddStream endedCall 9 0).1.remoteAVStream = some 9 ∧
    endedCall.hangupParty = some Party.localSide ∧
    (onHangupReceived endedCall (JsVal.str "busy")).1.hangupParty
      = some Party.remoteSide ∧
    endedCall.hangupReason = JsVal.str "user_hangup" ∧
    (onHangupReceived endedCall (JsVal.str "busy")).1.hangupReason
      = JsVal.str "busy" := by decide

/-- C1 amended: once a call is `ended`, the handlers that test for the
terminal state — remote ICE candidate, remote answer, local-offer
creation, both user-media callbacks, and ICE connection-state changes —
change no field of the call; all of them are also effect-free, except that
`_gotUserMediaForInvite` on a call with a successor (a glare-replaced
call) forwards the stream to the successor while still leaving every field
of the replaced call unchanged.  The MediaProvider stream callbacks
(`_onAddStream`, `_onRemoteStreamStarted`, `_onRemoteStreamEnded`) and
`_onHangupReceived` carry no such guard and may still change `state`,
`type`, the remote stream handle, and re-set
`hangup_party`/`hangup_reason` after `ended`. -/
theorem endedGuardedHandlersAreNoops (c : Call) (h : c.state = CState.ended)
    (cand : Candidate) (stream : Nat) (ice : String) :
    gotRemoteIceCandidate c cand = (c, []) ∧
    receivedAnswer c = (c, []) ∧
    gotLocalOffer c = (c, []) ∧
    gotUserMediaForAnswer c stream = (c, []) ∧
    (gotUserMediaForInvite c stream).1 = c ∧
    (c.successor = none → gotUserMediaForInvite c stream = (c, [])) ∧
    onIceConnectionStateChanged c ice = (c, []) ∧
    (onRemoteStreamStarted c).1.state = CState.connected ∧
    (onHangupReceived c (JsVal.str "busy")).1.hangupParty
      = some Party.remoteSide := by
  refine ⟨?_, ?_, ?_, ?_, ?_, ?_, ?_, rfl, rfl⟩
  · simp [gotRemoteIceCandidate, h]
  · simp [receivedAnswer, h]
  · simp [gotLocalOffer, h]
  · simp [gotUserMediaForAnswer, h]
  · cases hs : c.successor <;> simp [gotUserMediaForInvite, hs, h]
  · intro hsucc
    simp [gotUserMediaForInvite, hsucc, h]
  · simp [onIceConnectionStateChanged, h]

/-- Witness for C1 amended at the concrete `endedCall`. -/
theorem endedGuardedHandlersAreNoops_witness :
    gotRemoteIceCandidate endedCall candA = (endedCall, []) ∧
    receivedAnswer endedCall = (endedCall, []) ∧
    gotLocalOffer endedCall = (endedCall, []) ∧
    gotUserMediaForAnswer endedCall 3 = (endedCall, []) ∧
    (gotUserMediaForInvite endedCall 3).1 = endedCall ∧
    (endedCall.successor = none → gotUserMediaForInvite endedCall 3 = (endedCall, [])) ∧
    onIceConnectionStateChanged endedCall "connected" = (endedCall, []) ∧
    (onRemoteStreamStarted endedCall).1.state = CState.connected ∧
    (onHangupReceived endedCall (JsVal.str "busy")).1.hangupParty
      = some Party.remoteSide :=
  endedGuardedHandlersAreNoops endedCall (by decide) candA 3 "connected"

/-- C2: the claim's handoff and `replaced` emission do happen, but the
hangup event is NOT suppressed.  `_replacedBy` ends with
`this.hangup(true)`: `hangup` is declared `hangup(reason, suppressEvent)`,
so `true` binds to the documented-as-string `reason` parameter and
`suppressEvent` is `undefined` (falsy) — `terminate` therefore runs with
`shouldEmit = true` and `onHangup` IS emitted to subscribers (with
`hangupReason` left as the boolean `true`).  Evaluation at a call in state
`invite_sent` with captured stream 7: the effect trace hands the stream to
the successor, emits `replaced`, and then emits `onHangup`. -/
theorem replacedByEmitsHangup :
    (replacedBy inviteSentCall 1).2 =
      [Eff.successorGotStream (some 7), Eff.successorBindViews,
       Eff.emitReplaced, Eff.stopMedia, Eff.closePC, Eff.emitHangup,
       Eff.sendHangupEvent JsVal.jsTrue] ∧
    Eff.emitHangup ∈ (replacedBy inviteSentCall 1).2 ∧
    (replacedBy inviteSentCall 1).1.hangupReason = JsVal.jsTrue ∧
    (replacedBy inviteSentCall 1).1.localAVStream = none ∧
    (replacedBy inviteSentCall 1).1.state = CState.ended := by decide

/-- C7 counterexample: an invite received with age 0 never expires —
`if (event.getAge())` is falsy at 0, so `_initWithInvite` schedules no
ringing timeout at all: its effect trace is exactly the remote-description
application, with no timer, and the call is left `ringing` with nothing
armed to end it. -/
theorem ageZeroInviteSchedulesNoTimer :
    (initWithInvite freshCall
        { lifetimeMs := 60000, ageMs := 0, offerHasVideoSection := false }).2
      = [Eff.setRemoteDesc] ∧
    (initWithInvite freshCall
        { lifetimeMs := 60000, ageMs := 0, offerHasVideoSection := false }).1.state
      = CState.ringing := by decide

/-- C7 amended: a ringing timeout of `invite_lifetime_ms − age_ms` is
scheduled only for inbound invites whose age is strictly positive; an
invite with age 0 schedules no timeout and never expires.  When a timeout
was scheduled and fires while the call is still `ringing`, the call marks
`hangup_party = remote`, stops media, closes the peer connection (its
signalling state not being `closed`), emits the hangup event, and
transitions to `ended`. -/
theorem ringingTimeoutForAgedInvite (c : Call) (ev : InviteEvent)
    (h : 0 < ev.ageMs) (c' : Call) (h1 : c'.state = CState.ringing)
    (h2 : c'.pcSignalingClosed = false) :
    (initWithInvite c ev).2 =
      [Eff.setRemoteDesc, Eff.scheduleTimer (ev.lifetimeMs - ev.ageMs)] ∧
    (initWithInvite c ev).1.state = CState.ringing ∧
    (ringingTimeoutFired c').1.state = CState.ended ∧
    (ringingTimeoutFired c').1.hangupParty = some Party.remoteSide ∧
    (ringingTimeoutFired c').2 = [Eff.stopMedia, Eff.closePC, Eff.emitHangup] := by
  have hage : ev.ageMs ≠ 0 := Nat.pos_iff_ne_zero.mp h
  refine ⟨by simp [initWithInvite, hage], by simp [initWithInvite], ?_, ?_, ?_⟩ <;>
    simp [ringingTimeoutFired, h1, h2]

/-- Witness for C7 amended: an invite aged 45000 ms with lifetime 60000 ms
(timer 15000 ms) and the expiry firing on `ringingCall`. -/
theorem ringingTimeoutForAgedInvite_witness :
    (initWithInvite freshCall
        { lifetimeMs := 60000, ageMs := 45000, offerHasVideoSection := false }).2 =
      [Eff.setRemoteDesc, Eff.scheduleTimer (60000 - 45000)] ∧
    (initWithInvite freshCall
        { lifetimeMs := 60000, ageMs := 45000, offerHasVideoSection := false }).1.state
      = CState.ringing ∧
    (ringingTimeoutFired ringingCall).1.state = CState.ended ∧
    (ringingTimeoutFired ringingCall).1.hangupParty = some Party.remoteSide ∧
    (ringingTimeoutFired ringingCall).2 =
      [Eff.stopMedia, Eff.closePC, Eff.emitHangup] :=
  ringingTimeoutForAgedInvite freshCall
    { lifetimeMs := 60000, ageMs := 45000, offerHasVideoSection := false }
    (by decide) ringingCall (by decide) (by decide)

/-- C8: the claim holds on the outbound place path — `_getUserMediaFailed`
emits the `no_user_media` error and then hangs up — but on the inbound
answer path the code is broken: `answer` binds
`hookCallback(self, self.getUserMediaFailed)` (no underscore), a property
that does not exist on `MatrixCall.prototype` (the method is named
`_getUserMediaFailed`), so on capture failure the hooked callback applies
`undefined` and throws instead of emitting the error and hanging up. -/
theorem answerFailureCallbackUnbound :
    answerFailureCallbackName ∉ matrixCallPrototypeMethods ∧
    placeCallFailureCallbackName ∈ matrixCallPrototypeMethods ∧
    (getUserMediaFailed waitMediaCall).2.head?
      = some (Eff.emitError "no_user_media") ∧
    Eff.emitHangup ∈ (getUserMediaFailed waitMediaCall).2 ∧
    (getUserMediaFailed waitMediaCall).1.state = CState.ended := by decide

/-- C9: once the outbound invite is published (the `setLocalDescription`
success continuation of `_gotLocalOffer`, reached in any non-ended state),
the call publishes `m.call.invite` with lifetime `CALL_TIMEOUT_MS`
(60,000 ms), schedules a timer of the same duration, and enters
`invite_sent`; when that timer fires with the call still `invite_sent`,
the call hangs up locally with `hangup_reason = "invite_timeout"`, emits
exactly one hangup event, and closes the peer connection. -/
theorem inviteTimeoutHangsUp (c : Call) (h : c.state ≠ CState.ended)
    (c' : Call) (h1 : c'.state = CState.inviteSent)
    (h2 : c'.hasPeerConn = true) :
    CALL_TIMEOUT_MS = 60000 ∧
    (gotLocalOffer c).1.state = CState.inviteSent ∧
    (gotLocalOffer c).2 =
      [Eff.sendInviteEvent CALL_TIMEOUT_MS, Eff.scheduleTimer CALL_TIMEOUT_MS] ∧
    (inviteTimeoutFired c').1.state = CState.ended ∧
    (inviteTimeoutFired c').1.hangupReason = JsVal.str "invite_timeout" ∧
    (inviteTimeoutFired c').1.hangupParty = some Party.localSide ∧
    (inviteTimeoutFired c').2.count Eff.emitHangup = 1 ∧
    Eff.closePC ∈ (inviteTimeoutFired c').2 := by
  have hfire : inviteTimeoutFired c' =
      hangup c' (JsVal.str "invite_timeout") false := by
    simp [inviteTimeoutFired, h1]
  refine ⟨rfl, by simp [gotLocalOffer, h], by simp [gotLocalOffer, h], ?_, ?_, ?_, ?_, ?_⟩
  · rw [hfire]; simp [hangup, terminate]
  · rw [hfire]; simp [hangup, terminate]
  · rw [hfire]; simp [hangup, terminate]
  · rw [hfire]
    cases hr : c'.remoteVideoElement <;> cases hl : c'.localVideoElement <;>
      simp [hangup, terminate, hr, hl, h2]
  · rw [hfire]
    cases hr : c'.remoteVideoElement <;> cases hl : c'.localVideoElement <;>
      simp [hangup, terminate, hr, hl, h2]

/-- Witness for C9 at a concrete `create_offer` call for the invite
publication and at `inviteSentCall` for the expiry. -/
theorem inviteTimeoutHangsUp_witness :
    CALL_TIMEOUT_MS = 60000 ∧
    (gotLocalOffer { waitMediaCall with state := CState.createOffer }).1.state
      = CState.inviteSent ∧
    (gotLocalOffer { waitMediaCall with state := CState.createOffer }).2 =
      [Eff.sendInviteEvent CALL_TIMEOUT_MS, Eff.scheduleTimer CALL_TIMEOUT_MS] ∧
    (inviteTimeoutFired inviteSentCall).1.state = CState.ended ∧
    (inviteTimeoutFired inviteSentCall).1.hangupReason
      = JsVal.str "invite_timeout" ∧
    (inviteTimeoutFired inviteSentCall).1.hangupParty = some Party.localSide ∧
    (inviteTimeoutFired inviteSentCall).2.count Eff.emitHangup = 1 ∧
    Eff.closePC ∈ (inviteTimeoutFired inviteSentCall).2 :=
  inviteTimeoutHangsUp { waitMediaCall with state := CState.createOffer }
    (by decide) inviteSentCall (by decide) (by decide)

end MatrixCallSpec
